import Mathlib

/-!
# Summarization request pipeline of `popup.js`

A shallow embedding of the two pieces of `src/popup.js` that make up the
summarization pipeline:

* `getGeminiSummary` (lines 168-222): truncation of the article text, choice of
  the prompt template, one request to the endpoint and the mapping of the
  answer (or failure) to a result;
* the click listener of the `summarize` button (lines 1-43): the API key
  check, the page text check and the rendering of the outcome.

JavaScript strings are sequences of UTF-16 code units, and `length` and
`substring` count code units, so a string is a `List UInt16` here.
-/

namespace Popup

/-! ## Values -/

/-- A JavaScript string: its UTF-16 code units, in order. -/
abbrev JSString := List UInt16

/-- The code units of a string literal of the source (all of them are ASCII). -/
def lit (s : String) : JSString :=
  s.toList.map (fun c => c.toNat.toUInt16)

/-- A number as `JSON.parse` produces it: a finite double `mantissa * 2 ^ exponent`,
or an infinity (a literal too large for a double). -/
inductive JSNumber where
  | finite (mantissa : Int) (exponent : Int)
  | infinite (negative : Bool)

/-- The values the pipeline handles: what `JSON.parse` can produce, and `undefined`. -/
inductive JSValue where
  | undefined
  | null
  | bool (b : Bool)
  | number (n : JSNumber)
  | string (s : JSString)
  | array (items : List JSValue)
  | object (fields : List (JSString × JSValue))

/-- ToBoolean, as used by `!`, `||` and `if`: `undefined`, `null`, `false`, zero and
the empty string are falsy, everything else (every array and object too) is truthy. -/
def truthy : JSValue → Bool
  | .undefined => false
  | .null => false
  | .bool b => b
  | .number (.finite m _) => decide (m ≠ 0)
  | .number (.infinite _) => true
  | .string s => !s.isEmpty
  | .array _ => true
  | .object _ => true

/-- The operator `a || b`: `a` when it is truthy, else `b`. -/
def orElse (a b : JSValue) : JSValue :=
  if truthy a then a else b

/-- An error value, as thrown or as a promise rejects with. -/
inductive JSError where
  /-- The value of `new Error(arg)`: its message is the string form of `arg`. -/
  | error (arg : JSValue)
  /-- A property was read on `null` or `undefined`. -/
  | typeError
  /-- The rejection of `res.json()` on a body that is not JSON. -/
  | syntaxError
  /-- The rejection of `fetch` itself, with whatever reason the platform gives. -/
  | transport (reason : JSValue)

/-- The own property `key` of a parsed object, `undefined` when it has none. A parsed
object has each key once; the first field of that name is taken. -/
def lookupField (key : JSString) : List (JSString × JSValue) → JSValue
  | [] => .undefined
  | (k, v) :: rest => if k = key then v else lookupField key rest

/-- The read `v.key` for a key that no prototype defines (`error`, `message`,
`candidates`, `content`, `parts`, `text`): a TypeError on `null` and `undefined`, the
own property on an object, `undefined` on every other value. -/
def getProp (v : JSValue) (key : JSString) : Except JSError JSValue :=
  match v with
  | .undefined => .error .typeError
  | .null => .error .typeError
  | .object fields => .ok (lookupField key fields)
  | _ => .ok .undefined

/-- The read `v?.key`: `undefined` when `v` is `null` or `undefined`, else `v.key`. -/
def optProp (v : JSValue) (key : JSString) : JSValue :=
  match v with
  | .object fields => lookupField key fields
  | _ => .undefined

/-- The read `v?.[0]`: `undefined` when `v` is `null` or `undefined`; the first
element of an array (`undefined` when it is empty); the property named `0` of an
object; the first code unit of a string, as a string; `undefined` otherwise. -/
def optFirst (v : JSValue) : JSValue :=
  match v with
  | .array (x :: _) => x
  | .object fields => lookupField (lit "0") fields
  | .string (c :: _) => .string [c]
  | _ => .undefined

/-! ## Prompt construction (`getGeminiSummary`, lines 169-187) -/

/-- The constant `maxLength`. -/
def maxLength : Nat := 20000

/-- The local `truncatedText`:
`text.length > maxLength ? text.substring(0, maxLength) + "..." : text`. -/
def truncatedText (text : JSString) : JSString :=
  if text.length > maxLength then text.take maxLength ++ lit "..." else text

/-- The local `prompt` after the `switch (summaryType)`: the cases compare with `===`,
so only the three strings select their template and every other value takes
the `default` branch. -/
def prompt (text : JSString) (summaryType : JSValue) : JSString :=
  match summaryType with
  | .string s =>
    if s = lit "brief" then
      lit "Provide a brief summary of the following article in 2-3 sentences:\n\n"
        ++ truncatedText text
    else if s = lit "detailed" then
      lit "Provide a detailed summary of the following article, covering all main points and key details:\n\n"
        ++ truncatedText text
    else if s = lit "bullets" then
      lit "Summarize the following article in 5-7 key points. Format each point as a line starting with \"- \" (dash followed by a space). Do not use asterisks or other bullet symbols, only use the dash. Keep each point concise and focused on a single key insight from the article:\n\n"
        ++ truncatedText text
    else
      lit "Summarize the following article:\n\n" ++ truncatedText text
  | _ => lit "Summarize the following article:\n\n" ++ truncatedText text

/-! ## The request and the endpoint (`getGeminiSummary`, lines 189-221) -/

/-- The one request `getGeminiSummary` sends: a POST to the `generateContent` URL of
`gemini-1.5-flash` with `key` interpolated after `?key=`, and the JSON body
`{contents: [{parts: [{text: prompt}]}], generationConfig: {temperature: 0.2}}`.
Everything but `key` and `prompt` is constant. -/
structure Request where
  key : JSValue
  prompt : JSString

/-- What the endpoint does with a request, as far as the code observes it. -/
inductive FetchOutcome where
  /-- The promise of `fetch` rejects (transport failure). -/
  | rejected (reason : JSValue)
  /-- A response arrives, with its `ok` flag; `body` is what `res.json()` resolves
  to, or `none` when the body is not JSON and `res.json()` rejects. -/
  | response (ok : Bool) (body : Option JSValue)

/-- The outcome of one call of `getGeminiSummary`: the requests it sent, what it wrote
with `console.error`, and its result: the returned value, or the message of the
`Error` it throws to its caller. -/
structure SummaryRun where
  requests : List Request
  logged : List JSError
  result : Except JSString JSValue

/-- The expression `data?.candidates`. -/
def candidates (data : JSValue) : JSValue :=
  optProp data (lit "candidates")

/-- The expression `data?.candidates?.[0]?.content`. -/
def candidateContent (data : JSValue) : JSValue :=
  optProp (optFirst (candidates data)) (lit "content")

/-- The expression `data?.candidates?.[0]?.content?.parts`. -/
def candidateParts (data : JSValue) : JSValue :=
  optProp (candidateContent data) (lit "parts")

/-- The expression `data?.candidates?.[0]?.content?.parts?.[0]?.text`. -/
def candidateText (data : JSValue) : JSValue :=
  optProp (optFirst (candidateParts data)) (lit "text")

/-- The body of the `try` block after `fetch` has settled: either the value the
function returns, or the error thrown inside the block. -/
def tryBlock (outcome : FetchOutcome) : Except JSError JSValue :=
  match outcome with
  | .rejected reason => .error (.transport reason)
  | .response false none => .error .syntaxError
  | .response false (some errorData) =>
    match getProp errorData (lit "error") with
    | .error e => .error e
    | .ok err =>
      .error (.error (orElse (optProp err (lit "message")) (.string (lit "API request failed"))))
  | .response true none => .error .syntaxError
  | .response true (some data) =>
    .ok (orElse (candidateText data) (.string (lit "No summary available.")))

/-- The function `getGeminiSummary(text, summaryType, apiKey)`, run against an
endpoint `fetch`. Whatever is thrown inside the `try` block is caught by its
`catch`, logged, and replaced by a new `Error` with a fixed message. -/
def getGeminiSummary (fetch : Request → FetchOutcome) (text : JSString)
    (summaryType : JSValue) (apiKey : JSValue) : SummaryRun :=
  let request : Request := { key := apiKey, prompt := prompt text summaryType }
  match tryBlock (fetch request) with
  | .ok summary => { requests := [request], logged := [], result := .ok summary }
  | .error error =>
    { requests := [request], logged := [error],
      result := .error (lit "Failed to generate summary. Please try again later.") }

/-! ## The click listener of `summarize` (lines 1-43) -/

/-- The property `text` of the object the content script answers with. -/
inductive TextField where
  | missing
  | null
  | str (s : JSString)

/-- The answer `res` to the message `{type: "GET_ARTICLE_TEXT"}`: nothing, or an object
`{text: ...}`. -/
inductive ArticleResponse where
  | undefined
  | null
  | reply (text : TextField)

/-- The test `!res || !res.text` of line 21 fails exactly when `res` is an object whose
`text` is a non-empty string; that string is returned then. -/
def articleText : ArticleResponse → Option JSString
  | .reply (.str s) => if s.isEmpty then none else some s
  | _ => none

/-- What the browser supplies to one click on `summarize`. -/
structure Browser where
  /-- The `value` of the `summary-type` select. -/
  summaryType : JSString
  /-- The property `geminiApiKey` of the object `chrome.storage.sync.get` calls back with. -/
  geminiApiKey : JSValue
  /-- The ids of the tabs `chrome.tabs.query` calls back with. -/
  tabs : List Nat
  /-- The answer of the content script of the tab with the given id. -/
  sendMessage : Nat → ArticleResponse
  /-- The summarization endpoint. -/
  fetch : Request → FetchOutcome

/-- The last assignment to the result area `resultDiv`. -/
inductive ResultArea where
  | innerHTML (markup : JSString)
  | innerText (value : JSValue)

/-- The observable state of the popup after a click has been handled. -/
structure PopupState where
  resultDiv : ResultArea
  /-- The requests sent to the summarization endpoint. -/
  requests : List Request
  /-- The errors written with `console.error`. -/
  logged : List JSError
  /-- An exception that escaped a callback, if any. -/
  uncaught : Option JSError

/-- The state right after line 3: the loader is shown, nothing else has happened. -/
def loading : PopupState :=
  { resultDiv := .innerHTML (lit "<div class=\"loading\"><div class=\"loader\"></div></div>"),
    requests := [], logged := [], uncaught := none }

/-- The click listener of the `summarize` button, with its nested callbacks run in
order: storage lookup, tab query, message to the content script, summary. -/
def summarizeClick (b : Browser) : PopupState :=
  if !truthy b.geminiApiKey then
    { loading with
      resultDiv := .innerHTML
        (lit "API key not found. Please set your API key in the extension options.") }
  else
    match b.tabs with
    | [] => { loading with uncaught := some .typeError }
    | tab :: _ =>
      match articleText (b.sendMessage tab) with
      | none =>
        { loading with
          resultDiv := .innerText (.string (lit "Could not extract article text from this page.")) }
      | some text =>
        let run := getGeminiSummary b.fetch text (.string b.summaryType) b.geminiApiKey
        match run.result with
        | .ok summary =>
          { resultDiv := .innerText summary, requests := run.requests,
            logged := run.logged, uncaught := none }
        | .error message =>
          { resultDiv := .innerText (.string (lit "Error: " ++
              (if message.isEmpty then lit "Failed to generate summary." else message))),
            requests := run.requests, logged := run.logged, uncaught := none }

/-! ## The instruction table of the specification -/

/-- The instruction the specification assigns to a style selector: one fixed sentence
for each of `brief`, `detailed` and `bullets`, and the default sentence for every
other selector. -/
def instruction (summaryType : JSValue) : JSString :=
  match summaryType with
  | .string s =>
    if s = lit "brief" then
      lit "Provide a brief summary of the following article in 2-3 sentences:"
    else if s = lit "detailed" then
      lit "Provide a detailed summary of the following article, covering all main points and key details:"
    else if s = lit "bullets" then
      lit "Summarize the following article in 5-7 key points. Format each point as a line starting with \"- \" (dash followed by a space). Do not use asterisks or other bullet symbols, only use the dash. Keep each point concise and focused on a single key insight from the article:"
    else
      lit "Summarize the following article:"
  | _ => lit "Summarize the following article:"

/-! ## Shared lemmas -/

set_option maxRecDepth 100000 in
theorem lit_brief :
    lit "Provide a brief summary of the following article in 2-3 sentences:\n\n"
      = lit "Provide a brief summary of the following article in 2-3 sentences:" ++ lit "\n\n" := by
  decide

set_option maxRecDepth 100000 in
theorem lit_detailed :
    lit "Provide a detailed summary of the following article, covering all main points and key details:\n\n"
      = lit "Provide a detailed summary of the following article, covering all main points and key details:"
        ++ lit "\n\n" := by
  decide

set_option maxRecDepth 100000 in
theorem lit_bullets :
    lit "Summarize the following article in 5-7 key points. Format each point as a line starting with \"- \" (dash followed by a space). Do not use asterisks or other bullet symbols, only use the dash. Keep each point concise and focused on a single key insight from the article:\n\n"
      = lit "Summarize the following article in 5-7 key points. Format each point as a line starting with \"- \" (dash followed by a space). Do not use asterisks or other bullet symbols, only use the dash. Keep each point concise and focused on a single key insight from the article:"
        ++ lit "\n\n" := by
  decide

theorem lit_default :
    lit "Summarize the following article:\n\n"
      = lit "Summarize the following article:" ++ lit "\n\n" := by
  decide

theorem lit_newlines_length : (lit "\n\n").length = 2 := by decide

theorem lit_marker_length : (lit "...").length = 3 := by decide

/-- Every template of the `switch` is its instruction, two newlines, and the
truncated text. -/
theorem prompt_split (text : JSString) (summaryType : JSValue) :
    prompt text summaryType = instruction summaryType ++ lit "\n\n" ++ truncatedText text := by
  unfold prompt instruction
  split
  · split_ifs
    · rw [lit_brief]
    · rw [lit_detailed]
    · rw [lit_bullets]
    · rw [lit_default]
  · rw [lit_default]

/-- Dropping the instruction and its two newlines from the prompt leaves the
truncated text. -/
theorem prompt_drop (text : JSString) (summaryType : JSValue) :
    (prompt text summaryType).drop ((instruction summaryType).length + 2) = truncatedText text := by
  rw [prompt_split]
  apply List.drop_left'
  simp [lit_newlines_length]

/-- A call of `getGeminiSummary` sends exactly one request, carrying the prompt. -/
theorem getGeminiSummary_requests (fetch : Request → FetchOutcome) (text : JSString)
    (summaryType apiKey : JSValue) :
    (getGeminiSummary fetch text summaryType apiKey).requests
      = [{ key := apiKey, prompt := prompt text summaryType }] := by
  unfold getGeminiSummary
  cases h : tryBlock (fetch { key := apiKey, prompt := prompt text summaryType }) <;>
    simp only [h]

/-- Whatever the `try` block throws, the caller sees the fixed message. -/
theorem getGeminiSummary_of_throw (fetch : Request → FetchOutcome) (text : JSString)
    (summaryType apiKey : JSValue) (e : JSError)
    (h : tryBlock (fetch { key := apiKey, prompt := prompt text summaryType }) = .error e) :
    getGeminiSummary fetch text summaryType apiKey
      = { requests := [{ key := apiKey, prompt := prompt text summaryType }],
          logged := [e],
          result := .error (lit "Failed to generate summary. Please try again later.") } := by
  unfold getGeminiSummary
  simp only [h]

/-- Whatever the `try` block returns is the result of the call. -/
theorem getGeminiSummary_of_return (fetch : Request → FetchOutcome) (text : JSString)
    (summaryType apiKey : JSValue) (v : JSValue)
    (h : tryBlock (fetch { key := apiKey, prompt := prompt text summaryType }) = .ok v) :
    (getGeminiSummary fetch text summaryType apiKey).result = .ok v := by
  unfold getGeminiSummary
  simp only [h]

theorem truncatedText_of_long (text : JSString) (h : text.length > 20000) :
    truncatedText text = text.take 20000 ++ lit "..." := by
  unfold truncatedText maxLength
  rw [if_pos h]

theorem truncatedText_of_short (text : JSString) (h : text.length ≤ 20000) :
    truncatedText text = text := by
  unfold truncatedText maxLength
  rw [if_neg (Nat.not_lt.mpr h)]

theorem truncatedText_length (text : JSString) : (truncatedText text).length ≤ 20003 := by
  by_cases h : text.length > 20000
  · rw [truncatedText_of_long text h]
    simp only [List.length_append, List.length_take, lit_marker_length]
    omega
  · rw [truncatedText_of_short text (Nat.not_lt.mp h)]
    omega

/-! ## Prompt construction: truncation and templates -/

/-- C1: for every text of more than 20000 code units and every summaryType, the part
of the prompt of the request sent by `getGeminiSummary` that follows the
instruction and its two newlines is `text.substring(0, 20000)` followed by the
marker `...`, and nothing else. -/
theorem prompt_body_of_long_text (fetch : Request → FetchOutcome) (text : JSString)
    (summaryType apiKey : JSValue) (h : text.length > 20000) :
    (getGeminiSummary fetch text summaryType apiKey).requests.map
        (fun r => r.prompt.drop ((instruction summaryType).length + 2))
      = [text.take 20000 ++ lit "..."] := by
  rw [getGeminiSummary_requests]
  simp only [List.map_cons, List.map_nil, prompt_drop, truncatedText_of_long text h]

theorem prompt_body_of_long_text_witness :
    (List.replicate 20001 (97 : UInt16)).length > 20000 ∧
    (getGeminiSummary (fun _ => .rejected .undefined) (List.replicate 20001 (97 : UInt16))
        (.string (lit "brief")) (.string (lit "k"))).requests.map
        (fun r => r.prompt.drop ((instruction (.string (lit "brief"))).length + 2))
      = [(List.replicate 20001 (97 : UInt16)).take 20000 ++ lit "..."] :=
  ⟨by rw [List.length_replicate]; decide,
    prompt_body_of_long_text _ _ _ _ (by rw [List.length_replicate]; decide)⟩

/-- C2: for every text of at most 20000 code units (the empty string and a text of
exactly 20000 code units included) and every summaryType, the part of the prompt
of the request sent by `getGeminiSummary` that follows the instruction and its
two newlines is the text itself, with no marker. -/
theorem prompt_body_of_short_text (fetch : Request → FetchOutcome) (text : JSString)
    (summaryType apiKey : JSValue) (h : text.length ≤ 20000) :
    (getGeminiSummary fetch text summaryType apiKey).requests.map
        (fun r => r.prompt.drop ((instruction summaryType).length + 2))
      = [text] := by
  rw [getGeminiSummary_requests]
  simp only [List.map_cons, List.map_nil, prompt_drop, truncatedText_of_short text h]

theorem prompt_body_of_short_text_witness :
    (List.replicate 20000 (97 : UInt16)).length ≤ 20000 ∧
    (getGeminiSummary (fun _ => .rejected .undefined) (List.replicate 20000 (97 : UInt16))
        (.string (lit "detailed")) (.string (lit "k"))).requests.map
        (fun r => r.prompt.drop ((instruction (.string (lit "detailed"))).length + 2))
      = [List.replicate 20000 (97 : UInt16)] :=
  ⟨by rw [List.length_replicate],
    prompt_body_of_short_text _ _ _ _ (by rw [List.length_replicate])⟩

/-- C4: for every text and every summaryType, the prompt of the request sent by
`getGeminiSummary` is the instruction of that summaryType (the fixed sentence of
`brief`, `detailed` or `bullets`, the default sentence for every other value),
then two newlines, then the possibly truncated text. -/
theorem prompt_is_instruction_then_text (fetch : Request → FetchOutcome) (text : JSString)
    (summaryType apiKey : JSValue) :
    (getGeminiSummary fetch text summaryType apiKey).requests.map Request.prompt
      = [instruction summaryType ++ lit "\n\n" ++ truncatedText text] := by
  rw [getGeminiSummary_requests]
  simp only [List.map_cons, List.map_nil, prompt_split]

/-- C10: for every text and every summaryType, the text embedded in the prompt of the
request sent by `getGeminiSummary` has at most 20003 code units, the prompt has at
most the length of the instruction plus 2 plus 20003, and the embedded text is a
prefix of the input text, optionally followed by `...`. -/
theorem prompt_size_cap (fetch : Request → FetchOutcome) (text : JSString)
    (summaryType apiKey : JSValue) :
    ∃ body : JSString,
      (getGeminiSummary fetch text summaryType apiKey).requests.map Request.prompt
        = [instruction summaryType ++ lit "\n\n" ++ body] ∧
      body.length ≤ 20003 ∧
      (instruction summaryType ++ lit "\n\n" ++ body).length
        ≤ (instruction summaryType).length + 2 + 20003 ∧
      ∃ p : JSString, p <+: text ∧ (body = p ∨ body = p ++ lit "...") := by
  refine ⟨truncatedText text, ?_, truncatedText_length text, ?_, ?_⟩
  · rw [getGeminiSummary_requests]
    simp only [List.map_cons, List.map_nil, prompt_split]
  · have := truncatedText_length text
    simp only [List.length_append, lit_newlines_length]
    omega
  · by_cases h : text.length > 20000
    · exact ⟨text.take 20000, List.take_prefix _ _, Or.inr (truncatedText_of_long text h)⟩
    · exact ⟨text, List.prefix_refl _, Or.inl (truncatedText_of_short text (Nat.not_lt.mp h))⟩

/-! ## Mapping the answer of the endpoint -/

theorem orElse_of_falsy (a b : JSValue) (h : truthy a = false) : orElse a b = b := by
  unfold orElse
  rw [h]
  rfl

theorem orElse_of_truthy (a b : JSValue) (h : truthy a = true) : orElse a b = a := by
  unfold orElse
  rw [h]
  rfl

/-- No property can be read through `undefined`, so the chain ends in `undefined`
as soon as one of its steps does. -/
theorem candidateText_of_parts_undefined (data : JSValue)
    (h : candidateParts data = .undefined) : candidateText data = .undefined := by
  unfold candidateText
  rw [h]
  rfl

theorem candidateText_of_content_undefined (data : JSValue)
    (h : candidateContent data = .undefined) : candidateText data = .undefined := by
  apply candidateText_of_parts_undefined
  unfold candidateParts
  rw [h]
  rfl

theorem candidateText_of_candidates_undefined (data : JSValue)
    (h : candidates data = .undefined) : candidateText data = .undefined := by
  apply candidateText_of_content_undefined
  unfold candidateContent
  rw [h]
  rfl

theorem candidateText_of_candidates_empty (data : JSValue)
    (h : candidates data = .array []) : candidateText data = .undefined := by
  apply candidateText_of_content_undefined
  unfold candidateContent
  rw [h]
  rfl

theorem candidateText_of_parts_empty (data : JSValue)
    (h : candidateParts data = .array []) : candidateText data = .undefined := by
  unfold candidateText
  rw [h]
  rfl

/-- A response that is not `ok` always ends in the fixed message: the error thrown
for it inside the `try` block is caught there. -/
theorem getGeminiSummary_of_not_ok (fetch : Request → FetchOutcome) (text : JSString)
    (summaryType apiKey : JSValue) (body : Option JSValue)
    (h : fetch { key := apiKey, prompt := prompt text summaryType } = .response false body) :
    (getGeminiSummary fetch text summaryType apiKey).result
      = .error (lit "Failed to generate summary. Please try again later.") := by
  have hthrow : ∃ e, tryBlock (fetch { key := apiKey, prompt := prompt text summaryType })
      = .error e := by
    rw [h]
    cases body with
    | none => exact ⟨_, rfl⟩
    | some errorData =>
      cases hp : getProp errorData (lit "error") with
      | error e => exact ⟨e, by simp only [tryBlock, hp]⟩
      | ok err =>
        exact ⟨.error (orElse (optProp err (lit "message")) (.string (lit "API request failed"))),
          by simp only [tryBlock, hp]⟩
  obtain ⟨e, he⟩ := hthrow
  rw [getGeminiSummary_of_throw fetch text summaryType apiKey e he]

/-- C3, on the code: the endpoint answers with a status that is not a success and the
body `{"error": {"message": "API key not valid"}}`. The `Error` carrying the
message of the server is thrown inside the `try` block, so the `catch` of the
same block receives it: it is logged, and the caller gets the fixed message, which
differs from the message of the server. -/
theorem server_message_is_replaced :
    (getGeminiSummary
        (fun _ => .response false (some (.object
          [(lit "error", .object [(lit "message", .string (lit "API key not valid"))])])))
        (lit "article") (.string (lit "brief")) (.string (lit "k"))).result
      = .error (lit "Failed to generate summary. Please try again later.") ∧
    (getGeminiSummary
        (fun _ => .response false (some (.object
          [(lit "error", .object [(lit "message", .string (lit "API key not valid"))])])))
        (lit "article") (.string (lit "brief")) (.string (lit "k"))).logged
      = [.error (.string (lit "API key not valid"))] ∧
    lit "Failed to generate summary. Please try again later." ≠ lit "API key not valid" :=
  ⟨rfl, rfl, by decide⟩

/-- The read of a property an object has: the fields before it bear other names. -/
theorem lookupField_of_field (key : JSString) (v : JSValue)
    (before after : List (JSString × JSValue)) (h : ∀ kv ∈ before, kv.1 ≠ key) :
    lookupField key (before ++ (key, v) :: after) = v := by
  induction before with
  | nil => simp only [List.nil_append, lookupField, if_true]
  | cons kv rest ih =>
    obtain ⟨k, w⟩ := kv
    have hk : k ≠ key := h (k, w) (List.mem_cons_self _ _)
    simp only [List.cons_append, lookupField, if_neg hk]
    exact ih (fun kv hkv => h kv (List.mem_cons_of_mem _ hkv))

/-- The `||` of line 215 keeps a non-empty string the chain has extracted. -/
theorem getGeminiSummary_of_candidateText (fetch : Request → FetchOutcome) (text : JSString)
    (summaryType apiKey : JSValue) (data : JSValue) (s : JSString)
    (hres : fetch { key := apiKey, prompt := prompt text summaryType }
      = .response true (some data))
    (htext : candidateText data = .string s) (hs : s ≠ []) :
    (getGeminiSummary fetch text summaryType apiKey).result = .ok (.string s) := by
  apply getGeminiSummary_of_return
  rw [hres]
  unfold tryBlock
  simp only
  rw [htext, orElse_of_truthy]
  cases s with
  | nil => exact absurd rfl hs
  | cons c cs => rfl

/-- C5: when the endpoint answers with a success status and a JSON body that is an
object whose `candidates` is an array, whose first candidate is an object whose
`content` is an object whose `parts` is an array, whose first part is an object
whose `text` is a non-empty string `s`, the call returns exactly `s`, whatever
the other fields, the other candidates and the other parts are. -/
theorem summary_is_candidate_text (fetch : Request → FetchOutcome) (text : JSString)
    (summaryType apiKey : JSValue) (s : JSString)
    (bodyBefore bodyAfter candidateBefore candidateAfter contentBefore contentAfter
      partBefore partAfter : List (JSString × JSValue))
    (otherCandidates otherParts : List JSValue)
    (hres : fetch { key := apiKey, prompt := prompt text summaryType }
      = .response true (some (.object (bodyBefore ++
          (lit "candidates", .array
            (.object (candidateBefore ++
              (lit "content", .object (contentBefore ++
                (lit "parts", .array
                  (.object (partBefore ++ (lit "text", .string s) :: partAfter)
                    :: otherParts)) :: contentAfter)) :: candidateAfter)
              :: otherCandidates)) :: bodyAfter))))
    (hbody : ∀ kv ∈ bodyBefore, kv.1 ≠ lit "candidates")
    (hcandidate : ∀ kv ∈ candidateBefore, kv.1 ≠ lit "content")
    (hcontent : ∀ kv ∈ contentBefore, kv.1 ≠ lit "parts")
    (hpart : ∀ kv ∈ partBefore, kv.1 ≠ lit "text")
    (hs : s ≠ []) :
    (getGeminiSummary fetch text summaryType apiKey).result = .ok (.string s) := by
  refine getGeminiSummary_of_candidateText fetch text summaryType apiKey _ s hres ?_ hs
  simp only [candidateText, candidateParts, candidateContent, candidates, optProp, optFirst,
    lookupField_of_field _ _ _ _ hbody, lookupField_of_field _ _ _ _ hcandidate,
    lookupField_of_field _ _ _ _ hcontent, lookupField_of_field _ _ _ _ hpart]

/-- C6: when the endpoint answers with a success status and a JSON body from which no
candidate text can be extracted (`candidates` missing or empty, no `content` in
the first candidate, no `parts` in the content, `parts` empty, or the `text` of
the first part missing, `null` or empty), the call returns the string
`No summary available.`. -/
theorem fallback_when_no_candidate_text (fetch : Request → FetchOutcome) (text : JSString)
    (summaryType apiKey : JSValue) (data : JSValue)
    (hres : fetch { key := apiKey, prompt := prompt text summaryType }
      = .response true (some data))
    (hnone : candidates data = .undefined ∨ candidates data = .array [] ∨
      candidateContent data = .undefined ∨
      candidateParts data = .undefined ∨ candidateParts data = .array [] ∨
      candidateText data = .undefined ∨ candidateText data = .null ∨
      candidateText data = .string []) :
    (getGeminiSummary fetch text summaryType apiKey).result
      = .ok (.string (lit "No summary available.")) := by
  apply getGeminiSummary_of_return
  rw [hres]
  unfold tryBlock
  simp only
  rw [orElse_of_falsy]
  rcases hnone with h | h | h | h | h | h | h | h
  · rw [candidateText_of_candidates_undefined data h]; rfl
  · rw [candidateText_of_candidates_empty data h]; rfl
  · rw [candidateText_of_content_undefined data h]; rfl
  · rw [candidateText_of_parts_undefined data h]; rfl
  · rw [candidateText_of_parts_empty data h]; rfl
  · rw [h]; rfl
  · rw [h]; rfl
  · rw [h]; rfl

/-- C7: when `fetch` rejects, with any reason, or the body of the response is not
JSON, the call fails with the message
`Failed to generate summary. Please try again later.`. -/
theorem transport_failure_message (fetch : Request → FetchOutcome) (text : JSString)
    (summaryType apiKey : JSValue)
    (h : (∃ reason, fetch { key := apiKey, prompt := prompt text summaryType }
            = .rejected reason) ∨
         (∃ ok, fetch { key := apiKey, prompt := prompt text summaryType }
            = .response ok none)) :
    (getGeminiSummary fetch text summaryType apiKey).result
      = .error (lit "Failed to generate summary. Please try again later.") := by
  rcases h with ⟨reason, h⟩ | ⟨ok, h⟩
  · rw [getGeminiSummary_of_throw fetch text summaryType apiKey (.transport reason)
      (by rw [h]; rfl)]
  · cases ok with
    | false => exact getGeminiSummary_of_not_ok fetch text summaryType apiKey none h
    | true =>
      rw [getGeminiSummary_of_throw fetch text summaryType apiKey .syntaxError
        (by rw [h]; rfl)]

theorem summary_is_candidate_text_witness :
    (∀ kv ∈ [(lit "modelVersion", JSValue.string (lit "gemini-1.5-flash"))],
      kv.1 ≠ lit "candidates") ∧
    (∀ kv ∈ [(lit "index", JSValue.number (.finite 0 0))], kv.1 ≠ lit "content") ∧
    (∀ kv ∈ [(lit "role", JSValue.string (lit "model"))], kv.1 ≠ lit "parts") ∧
    lit " A summary. " ≠ [] ∧
    (getGeminiSummary
      (fun _ => .response true (some (.object
        ([(lit "modelVersion", .string (lit "gemini-1.5-flash"))] ++
          (lit "candidates", .array
            (.object ([(lit "index", .number (.finite 0 0))] ++
              (lit "content", .object ([(lit "role", .string (lit "model"))] ++
                (lit "parts", .array
                  (.object ([] ++ (lit "text", .string (lit " A summary. ")) :: [])
                    :: [.object [(lit "text", .string (lit "second part"))]])) :: []))
              :: [(lit "finishReason", .string (lit "STOP"))])
              :: [.object [(lit "content", .object [(lit "parts", .array
                    [.object [(lit "text", .string (lit "second candidate"))]])])]]))
          :: [(lit "usageMetadata", .object [])]))))
      (lit "article") (.string (lit "brief")) (.string (lit "k"))).result
      = .ok (.string (lit " A summary. ")) :=
  ⟨by decide, by decide, by decide, by decide,
    summary_is_candidate_text _ _ _ _ _ _ _ _ _ _ _ _ _ _ _ rfl
      (by decide) (by decide) (by decide) (by decide) (by decide)⟩

theorem fallback_when_no_candidate_text_witness :
    candidates (.object [(lit "candidates", .array [])]) = .array [] ∧
    (getGeminiSummary
      (fun _ => .response true (some (.object [(lit "candidates", .array [])])))
      (lit "article") (.string (lit "bullets")) (.string (lit "k"))).result
      = .ok (.string (lit "No summary available.")) :=
  ⟨rfl, fallback_when_no_candidate_text _ _ _ _ _ rfl (Or.inr (Or.inl rfl))⟩

theorem transport_failure_message_witness :
    (getGeminiSummary (fun _ => .rejected (.string (lit "net::ERR_CONNECTION_REFUSED")))
      (lit "article") (.string (lit "brief")) (.string (lit "k"))).result
      = .error (lit "Failed to generate summary. Please try again later.") :=
  transport_failure_message _ _ _ _ (Or.inl ⟨_, rfl⟩)

/-! ## The click listener -/

/-- C8: when the stored `geminiApiKey` is absent or empty, whatever the page content
and the summary type, no request is sent to the endpoint and the result area ends
with the message
`API key not found. Please set your API key in the extension options.`; it is
assigned as markup, and holds neither `<` (60) nor `&` (38), so it is shown as it is. -/
theorem no_request_without_api_key (b : Browser)
    (h : b.geminiApiKey = .undefined ∨ b.geminiApiKey = .string []) :
    (summarizeClick b).requests = [] ∧
    (summarizeClick b).resultDiv = .innerHTML
      (lit "API key not found. Please set your API key in the extension options.") ∧
    (60 : UInt16) ∉ lit "API key not found. Please set your API key in the extension options." ∧
    (38 : UInt16) ∉ lit "API key not found. Please set your API key in the extension options." := by
  have hfalsy : truthy b.geminiApiKey = false := by
    rcases h with h | h <;> rw [h] <;> rfl
  unfold summarizeClick
  rw [if_pos (by rw [hfalsy]; rfl)]
  exact ⟨rfl, rfl, by decide, by decide⟩

theorem no_request_without_api_key_witness :
    (summarizeClick
      { summaryType := lit "brief", geminiApiKey := .undefined, tabs := [7],
        sendMessage := fun _ => .reply (.str (lit "An article.")),
        fetch := fun _ => .response true (some .null) }).requests = [] ∧
    (summarizeClick
      { summaryType := lit "brief", geminiApiKey := .undefined, tabs := [7],
        sendMessage := fun _ => .reply (.str (lit "An article.")),
        fetch := fun _ => .response true (some .null) }).resultDiv = .innerHTML
      (lit "API key not found. Please set your API key in the extension options.") ∧
    (60 : UInt16) ∉ lit "API key not found. Please set your API key in the extension options." ∧
    (38 : UInt16) ∉ lit "API key not found. Please set your API key in the extension options." :=
  no_request_without_api_key _ (Or.inl rfl)

/-- C9: when an API key is present and the answer of the content script of the active
tab is absent or carries no text (`undefined`, `null`, or an object whose `text`
is missing, `null` or empty), no request is sent to the endpoint, the result area
ends with the message `Could not extract article text from this page.`, and no
exception is raised. -/
theorem no_request_without_article_text (b : Browser) (tab : Nat) (others : List Nat)
    (hkey : truthy b.geminiApiKey = true) (htab : b.tabs = tab :: others)
    (hres : b.sendMessage tab = .undefined ∨ b.sendMessage tab = .null ∨
      b.sendMessage tab = .reply .missing ∨ b.sendMessage tab = .reply .null ∨
      b.sendMessage tab = .reply (.str [])) :
    (summarizeClick b).requests = [] ∧
    (summarizeClick b).resultDiv
      = .innerText (.string (lit "Could not extract article text from this page.")) ∧
    (summarizeClick b).uncaught = none := by
  have htext : articleText (b.sendMessage tab) = none := by
    rcases hres with h | h | h | h | h <;> rw [h] <;> rfl
  unfold summarizeClick
  simp only [hkey, Bool.not_true, htab, htext]
  exact ⟨rfl, rfl, rfl⟩

theorem no_request_without_article_text_witness :
    (summarizeClick
      { summaryType := lit "brief", geminiApiKey := .string (lit "k"), tabs := [7],
        sendMessage := fun _ => .undefined,
        fetch := fun _ => .response true (some .null) }).requests = [] ∧
    (summarizeClick
      { summaryType := lit "brief", geminiApiKey := .string (lit "k"), tabs := [7],
        sendMessage := fun _ => .undefined,
        fetch := fun _ => .response true (some .null) }).resultDiv
      = .innerText (.string (lit "Could not extract article text from this page.")) ∧
    (summarizeClick
      { summaryType := lit "brief", geminiApiKey := .string (lit "k"), tabs := [7],
        sendMessage := fun _ => .undefined,
        fetch := fun _ => .response true (some .null) }).uncaught = none :=
  no_request_without_article_text _ 7 [] rfl rfl (Or.inl rfl)

end Popup
